import Mathlib

/-!
Verification of the core logic of `m.swim.substats` (SWIM subbasin statistics
preprocessor, `m.swim.substats/m.swim.substats.py`).

The module resolves a set of named per-subbasin parameters: each parameter is
either an explicit scalar (broadcast to all subbasins), the zonal average of a
named raster, or computed by one of five registered functions
(`chl`, `chs`, `chw`, `chd`, `lat`).  The resolved arrays are assembled into a
unit-indexed table and written as CSV.

The shallow embedding below models the per-subbasin numeric values as
`Option ℚ` (with `none` standing for a NaN / null cell or statistic) and the
external GRASS engine (zonal statistics, table read-back, computed-function
results) as fields of a `Config` record.  Fatal `grass.fatal` calls are
modelled as `Except.error` with the source's message text.
-/

namespace MSwimSubstats

/-- Outcome of the float-parse attempt on an explicit option value in
`getParam` (line 558 of the source): `float(self.options[param])` either
succeeds (`num`) or raises `ValueError`, in which case the string is treated
as a raster layer name (`layer`). -/
inductive OptValue where
  | num (v : ℚ)
  | layer (name : String)
deriving DecidableEq

/-- The environment of one run: explicit options (only the non-empty ones,
as in `main.__init__`), the external GRASS engine surface used by the
resolver, and the quantities read from the region/subbasin table.
`zonalMean name` is the array of per-subbasin zonal averages of raster
`name` read back from the attribute table (`meanSubbasin` +
`upload2Subbasins`); `computed p` is the per-subbasin array produced by the
registered computation function for `p` (after any zonal upload);
`ewres` is the region's east-west resolution in meters
(`grass.region()['ewres']`); `perims` are the subbasin perimeters in
kilometers (`v.to.db option=perimeter units=kilometer`); `subbcells` are the
per-subbasin cell counts from `r.stats -cn` on the rasterized subbasins. -/
structure Config where
  options : String → Option OptValue
  layerExists : String → Bool
  zonalMean : String → List (Option ℚ)
  computed : String → List (Option ℚ)
  ewres : ℚ
  perims : List ℚ
  subbcells : List ℚ

/-- One step of `correctChannelLength` (lines 690-726) for a single subbasin,
given `res` (cell resolution in km) and the pair (perimeter, raw channel
length): a NaN length (`none`) is set to `res`
(`v.db.update value=res where subbasinID IN nolength`); a finite length
strictly greater than the perimeter is set to the perimeter
(`v.db.update qcolumn=perim__ where subbasinID IN toolong`); any other
length is kept.  Both the `nolength` and the `toolong` selections are taken
from the table as it was read before any update, and a NaN never satisfies
`tbl[chl] > tbl[perim__]`, so the two selections are disjoint. -/
def correctOne (res : ℚ) (pc : ℚ × Option ℚ) : ℚ :=
  match pc.2 with
  | none => res
  | some l => if pc.1 < l then pc.1 else l

/-- `main.correctChannelLength` (lines 690-726): constrain the computed
channel lengths by the subbasin perimeters and replace NaNs by the cell
size.  `ewres` is in meters and is converted to km by the source's
`grass.region()['ewres']*1e-3`; `perims` are the per-subbasin perimeters in
km; `chl` the raw computed lengths.  Returns the corrected per-subbasin
array re-read from the table. -/
def correctChannelLength (ewres : ℚ) (perims : List ℚ) (chl : List (Option ℚ)) : List ℚ :=
  (perims.zip chl).map (correctOne (ewres * 1e-3))

/-- `main.areaFractions` (lines 628-637): each subbasin's cell count divided
by the total cell count (`np.float64(subbcells['value'])/np.sum(...)`). -/
def areaFractions (counts : List ℚ) : List ℚ :=
  counts.map (fun c => c / counts.sum)

/-- `main.getParam` (lines 552-583): resolve one parameter.  If it has an
explicit option value, a successful float parse broadcasts the scalar to all
`N` subbasins (`float(...)*np.ones(self.nsubbasins)`); otherwise the value
names a raster, which must exist (`grass.find_file`, else
`grass.fatal('%s not found.')`), and its per-subbasin zonal means are
returned.  Without an explicit value the registered computation function is
invoked, and exactly for `chl` its result is routed through
`correctChannelLength` before being returned. -/
def getParam (cfg : Config) (N : ℕ) (p : String) : Except String (List (Option ℚ)) :=
  match cfg.options p with
  | some (OptValue.num v) => Except.ok (List.replicate N (some v))
  | some (OptValue.layer name) =>
      if cfg.layerExists name then Except.ok (cfg.zonalMean name)
      else Except.error (name ++ " not found.")
  | none =>
      if p = "chl" then
        Except.ok ((correctChannelLength cfg.ewres cfg.perims (cfg.computed p)).map some)
      else Except.ok (cfg.computed p)

/-- The fatal message of the length check in `main.subbasinStats`
(lines 543-545), naming the actual count, the parameter and the expected
subbasin count. -/
def lengthErrMsg (found : ℕ) (p : String) (n : ℕ) : String :=
  "Can only find/calculate " ++ toString found ++ " values for " ++ p ++
    ", but there are " ++ toString n ++ " subbasins."

/-- The resolution loop of `main.subbasinStats` (lines 536-547): walk the
(group, parameter) queue; a parameter already present in `params` is
skipped, otherwise it is resolved via `getParam`, its length is checked
against the subbasin count `N` (`grass.fatal` on mismatch) and it is stored. -/
def resolveParams (cfg : Config) (N : ℕ) :
    List (String × String) → List (String × List (Option ℚ)) →
    Except String (List (String × List (Option ℚ)))
  | [], params => Except.ok params
  | gp :: rest, params =>
    if (params.lookup gp.2).isSome then resolveParams cfg N rest params
    else
      match getParam cfg N gp.2 with
      | Except.error e => Except.error e
      | Except.ok par =>
        if par.length = N then resolveParams cfg N rest (params ++ [(gp.2, par)])
        else Except.error (lengthErrMsg par.length gp.2 N)

/-- The three ordered parameter lists (`suborder`, `gworder`, `rteorder`),
keyed in the source by the dict
`\x7b'subbasin': ..., 'groundwater': ..., 'routing': ...\x7d`. -/
structure Orders where
  suborder : List String
  gworder : List String
  rteorder : List String

/-- The (group, parameter) queue in the iteration order of
`for f in self.orders.keys(): for p in self.orders[f]` — dict insertion
order: subbasin, groundwater, routing. -/
def allOrderParams (o : Orders) : List (String × String) :=
  (o.suborder.map (fun p => ("subbasin", p))) ++
  (o.gworder.map (fun p => ("groundwater", p))) ++
  (o.rteorder.map (fun p => ("routing", p)))

/-- `main.subbasinStats` (lines 525-549): compute the area fractions, set
`nsubbasins` to their count, seed the parameter dict with `flu` and resolve
every parameter of the three order lists, checking each resolved array's
length. -/
def subbasinStats (cfg : Config) (o : Orders) :
    Except String (ℕ × List (String × List (Option ℚ))) :=
  match resolveParams cfg (areaFractions cfg.subbcells).length (allOrderParams o)
      [("flu", (areaFractions cfg.subbcells).map some)] with
  | Except.error e => Except.error e
  | Except.ok ps => Except.ok ((areaFractions cfg.subbcells).length, ps)

/-- The five parameters with registered computation functions
(`self.functions`, lines 466-470). -/
def functionNames : List String := ["chl", "chs", "chw", "chd", "lat"]

/-- The raster options all of which the validation demands whenever any
function-computed parameter lacks an explicit value
(`self.functionsrasts`, line 471). -/
def functionsrasts : List String := ["elevation", "drainage", "accumulation", "mainstreams"]

/-- The fatal message of line 493 for a parameter with neither an explicit
value nor a computation function, naming the parameter and its group. -/
def configErrMsg (p g : String) : String :=
  "Not sure what to do with " ++ p ++ " given in " ++ g ++
    "order. No default value or raster given."

/-- The fatal message of line 490 for a function-computed parameter when one
of the four function rasters is missing. -/
def calcErrMsg (p : String) : String :=
  "To calculate " ++ p ++ ", elevation,drainage,accumulation,mainstreams must be given!"

/-- The body of the validation loop of `main.__init__` (lines 483-493) for
one parameter `p` of group `g`: `flu` is skipped; a parameter with an
explicit option passes; a function-computed one demands all four function
rasters; anything else is a fatal configuration error.  `opts s` states that
option `s` was given non-empty. -/
def checkParam (opts : String → Bool) (g p : String) : Except String Unit :=
  if p = "flu" then Except.ok ()
  else if opts p then Except.ok ()
  else if p ∈ functionNames then
    if functionsrasts.all opts then Except.ok () else Except.error (calcErrMsg p)
  else Except.error (configErrMsg p g)

/-- The inner loop `for p in self.orders[f]` of the validation, stopping at
the first `grass.fatal`. -/
def checkList (opts : String → Bool) (g : String) : List String → Except String Unit
  | [] => Except.ok ()
  | p :: ps =>
    match checkParam opts g p with
    | Except.error e => Except.error e
    | Except.ok _ => checkList opts g ps

/-- The outer loop `for f in self.orders` of the validation, in dict
insertion order: subbasin, groundwater, routing. -/
def checkOrders (opts : String → Bool) (o : Orders) : Except String Unit :=
  match checkList opts "subbasin" o.suborder with
  | Except.error e => Except.error e
  | Except.ok _ =>
    match checkList opts "groundwater" o.gworder with
    | Except.error e => Except.error e
    | Except.ok _ => checkList opts "routing" o.rteorder

/-- The initialisation sequence of `main.__init__`: the order-list
validation (lines 477-493) runs first; only when it passes does any raster
work happen (`v.to.rast` at line 498 and `r.mask` at line 502 are the first
raster operations).  On success the performed raster actions are returned;
a fatal validation error aborts before any of them. -/
def initial (opts : String → Bool) (o : Orders) : Except String (List String) :=
  match checkOrders opts o with
  | Except.error e => Except.error e
  | Except.ok _ => Except.ok ["v.to.rast subbasins subbasin__rast", "r.mask subbasin__rast"]

/-- Whether a run stage aborted fatally. -/
def isFatal : Except String (List String) → Bool
  | Except.error _ => true
  | Except.ok _ => false

/-- `main.centroid_latitude` (lines 639-656): extract the subbasin
centroids, reproject them to lon/lat (EPSG:4326) and return the latitude
column (`l.split('|')[2]`, the second coordinate).  It reads no raster at
all — only the subbasin vector's centroids, given here as the reprojected
(lon, lat) pairs. -/
def centroid_latitude (lonlat : List (ℚ × ℚ)) : List ℚ :=
  lonlat.map Prod.snd

/-- Lexicographic comparison of character lists, the order Python's `sorted`
uses on strings. -/
def charListLt : List Char → List Char → Bool
  | [], [] => false
  | [], _ :: _ => true
  | _ :: _, [] => false
  | a :: as, b :: bs => if a < b then true else if b < a then false else charListLt as bs

/-- Python's `<` on strings: lexicographic on the characters. -/
def pyStrLt (a b : String) : Bool := charListLt a.data b.data

/-- Python's `sorted` on strings: insertion of `s` into a sorted list. -/
def pyInsert (s : String) : List String → List String
  | [] => [s]
  | t :: ts => if pyStrLt t s then t :: pyInsert s ts else s :: t :: ts

/-- Python's `sorted` on a list of strings (ascending), as used by
`sorted(self.orders)` in `write_csv_output` (line 794). -/
def pySorted : List String → List String
  | [] => []
  | t :: ts => pyInsert t (pySorted ts)

/-- The group keys of the `self.orders` dict in insertion order. -/
def groupKeys : List String := ["subbasin", "groundwater", "routing"]

/-- Lookup of one group's order list by its name. -/
def ordersGet (o : Orders) (g : String) : List String :=
  if g = "subbasin" then o.suborder
  else if g = "groundwater" then o.gworder
  else if g = "routing" then o.rteorder
  else []

/-- The output column-name sequence of `main.write_csv_output` (line 795):
`[s for p in sorted(self.orders)[::-1] for s in self.orders[p]]` — the
groups sorted by name descending, each group's list flattened in place. -/
def outputCols (o : Orders) : List String :=
  ((pySorted groupKeys).reverse).flatMap (ordersGet o)

/-- The stacked table of `main.write_csv_output` (lines 793-794) viewed
row-wise: `np.column_stack` of `np.arange(1, nsubbasins+1)` with the data
columns in `outputCols` order yields, for each `i < N`, the row
`i+1 :: values of the columns at index i`. -/
def csvRows (N : ℕ) (o : Orders) (data : String → List ℚ) : List (List ℚ) :=
  (List.range N).map
    (fun i : ℕ => (((i + 1 : ℕ) : ℚ)) :: (outputCols o).map (fun c => (data c).getD i 0))

/-- The header of the written csv (line 796): `['subbasin_id'] + cols`. -/
def csvHeader (o : Orders) : List String :=
  "subbasin_id" :: outputCols o

/-- `main.channelWidth` (lines 754-770): per subbasin,
`min(1.29 * (max_accum * res^2/1000000)^0.6, 3000)` where `max_accum` is
the zonal maximum of the accumulation raster over the subbasin and `res`
the accumulation raster's east-west resolution in meters. -/
noncomputable def channelWidth (maxAccum res : ℝ) : ℝ :=
  min (1.29 * (maxAccum * res ^ (2 : ℕ) / 1000000) ^ (0.6 : ℝ)) 3000

/-- `main.channelDepth` (lines 772-788): per subbasin,
`min(0.13 * (max_accum * res^2/1000000)^0.4, 50)`. -/
noncomputable def channelDepth (maxAccum res : ℝ) : ℝ :=
  min (0.13 * (maxAccum * res ^ (2 : ℕ) / 1000000) ^ (0.4 : ℝ)) 50

/-- GRASS `r.mapcalc` trigonometry works in degrees: `tan(x)` for `x` in
degrees. -/
noncomputable def tanDeg (x : ℝ) : ℝ := Real.tan (x * Real.pi / 180)

/-- The mapcalc expression of line 742,
`mainstream__slope__tan = tan(max(srast, min_slope))`: the minimum-slope
clamp is applied to the zonal mean degree slope before the tangent. -/
noncomputable def mainstream_slope_tan (minSlope s : ℝ) : ℝ :=
  tanDeg (max s minSlope)

/-- The mapcalc expression of lines 748-749,
`out = if(isnull(v) & ~isnull(subbasinrast), tan(min_slope), v)`: a valid
subbasin with no stream-slope value receives `tan(min_slope)`. -/
noncomputable def fillNoData (minSlope : ℝ) (v : Option ℝ) (unitValid : Bool) : Option ℝ :=
  match v, unitValid with
  | none, true => some (tanDeg minSlope)
  | w, _ => w

/-- `main.mainChannelSlope` (lines 728-752) collapsed to one subbasin:
`streamSlope` is the zonal mean of the degree-slope raster over the
subbasin's stream cells (`none` when the subbasin has no stream cell), to
which line 742 applies `tan(max(·, min_slope))`; averaging that constant
over the subbasin leaves it unchanged, and lines 748-750 fill valid
subbasins without a value with `tan(min_slope)`. -/
noncomputable def mainChannelSlope (minSlope : ℝ) (streamSlope : Option ℝ)
    (unitValid : Bool) : Option ℝ :=
  fillNoData minSlope (streamSlope.map (mainstream_slope_tan minSlope)) unitValid

section Theorems

/-- Summing an elementwise division is dividing the sum. -/
lemma sum_map_div (l : List ℚ) (s : ℚ) : (l.map (fun c => c / s)).sum = l.sum / s := by
  induction l with
  | nil => simp
  | cons a t ih => simp [ih, add_div]

/-- C7: `areaFractions` assigns each subbasin its cell count divided by the
total cell count; whenever the total is positive the fractions sum to
exactly 1, and cell counts [10, 20, 30] yield [1/6, 1/3, 1/2]. -/
theorem areaFractions_sum_one (counts : List ℚ) (h : 0 < counts.sum) :
    (areaFractions counts).sum = 1 ∧ areaFractions [10, 20, 30] = [1/6, 1/3, 1/2] := by
  constructor
  · rw [areaFractions, sum_map_div, div_self (ne_of_gt h)]
  · norm_num [areaFractions]

/-- Witness for C7: the cell counts [10, 20, 30] have positive total and
their fractions sum to 1. -/
theorem areaFractions_sum_one_witness :
    (areaFractions [10, 20, 30]).sum = 1 ∧ areaFractions [10, 20, 30] = [1/6, 1/3, 1/2] :=
  areaFractions_sum_one [10, 20, 30] (by norm_num)

/-- C8: a parameter whose explicit input parses as a number resolves to that
value broadcast to a constant array of length N, and the result does not
depend on any other part of the environment (raster contents, computed
values, region): two configurations agreeing on the parsed option yield the
identical array, so resolving twice is idempotent. -/
theorem getParam_scalar_broadcast (cfg cfg' : Config) (N : ℕ) (p : String) (v : ℚ)
    (h : cfg.options p = some (OptValue.num v))
    (h' : cfg'.options p = some (OptValue.num v)) :
    getParam cfg N p = Except.ok (List.replicate N (some v)) ∧
    getParam cfg' N p = getParam cfg N p := by
  constructor
  · simp [getParam, h]
  · simp [getParam, h, h']

/-- Environment for the C8 witness: `chw="0.15"`, empty rasters. -/
def wcfg8 : Config where
  options := fun s => if s = "chw" then some (OptValue.num 0.15) else none
  layerExists := fun _ => false
  zonalMean := fun _ => []
  computed := fun _ => []
  ewres := 1
  perims := []
  subbcells := []

/-- Environment for the C8 witness with the same `chw="0.15"` but entirely
different raster contents. -/
def wcfg8' : Config where
  options := fun s => if s = "chw" then some (OptValue.num 0.15) else none
  layerExists := fun _ => true
  zonalMean := fun _ => [some 99, none, some 5]
  computed := fun _ => [some 42]
  ewres := 30
  perims := [7]
  subbcells := [3, 4]

/-- Witness for C8: `chw="0.15"` resolves to a constant 0.15 array of length
3 in both environments. -/
theorem getParam_scalar_broadcast_witness :
    getParam wcfg8 3 "chw" = Except.ok (List.replicate 3 (some 0.15)) ∧
    getParam wcfg8' 3 "chw" = getParam wcfg8 3 "chw" :=
  getParam_scalar_broadcast wcfg8 wcfg8' 3 "chw" 0.15 rfl rfl

/-- C10: the channel-length corrector runs only in the computed branch of
`getParam`.  An explicit numeric `chl` is broadcast untouched, an explicit
raster `chl` returns the zonal averages untouched (however non-finite or
over-perimeter they may be), and only when `chl` has no explicit value is
`correctChannelLength` applied to the computed result. -/
theorem chl_corrector_only_when_computed (cfg : Config) (N : ℕ) :
    (∀ v, cfg.options "chl" = some (OptValue.num v) →
      getParam cfg N "chl" = Except.ok (List.replicate N (some v))) ∧
    (∀ r, cfg.options "chl" = some (OptValue.layer r) → cfg.layerExists r = true →
      getParam cfg N "chl" = Except.ok (cfg.zonalMean r)) ∧
    (cfg.options "chl" = none →
      getParam cfg N "chl" =
        Except.ok ((correctChannelLength cfg.ewres cfg.perims (cfg.computed "chl")).map some)) := by
  refine ⟨fun v h => ?_, fun r h hex => ?_, fun h => ?_⟩ <;> simp [getParam, h, *]

/-- Environment for the C10 witness: `chl` given explicitly as raster "L"
whose zonal means contain a NaN and the value 100 against perimeters of 1 km. -/
def wcfg10 : Config where
  options := fun s => if s = "chl" then some (OptValue.layer "L") else none
  layerExists := fun _ => true
  zonalMean := fun s => if s = "L" then [none, some 100] else []
  computed := fun _ => []
  ewres := 1000
  perims := [1, 1]
  subbcells := [1, 1]

/-- Witness for C10: the explicitly supplied raster `chl` passes through
with a NaN and a value of 100 km against 1 km perimeters — no substitution
and no clamping. -/
theorem chl_corrector_only_when_computed_witness :
    getParam wcfg10 2 "chl" = Except.ok [none, some 100] :=
  (chl_corrector_only_when_computed wcfg10 2).2.1 "L" rfl rfl

/-- A corrected channel length never exceeds the larger of the perimeter
and the substituted cell size. -/
lemma correctOne_le (res : ℚ) (pc : ℚ × Option ℚ) : correctOne res pc ≤ max pc.1 res := by
  rcases pc with ⟨p, l⟩
  cases l with
  | none => simp [correctOne]
  | some l =>
    rcases lt_or_ge p l with h | h
    · simp only [correctOne, if_pos h]
      exact le_max_left _ _
    · simp only [correctOne, if_neg (not_lt.mpr h)]
      exact le_trans h (le_max_left _ _)

/-- C2 (amended): after `correctChannelLength` no NaN remains — a NaN length
becomes the cell resolution in km (`ewres * 1e-3`), a finite length strictly
above its perimeter is clamped to exactly the perimeter, a finite length at
most the perimeter is kept — and every returned length is at most
`max(perimeter, cell resolution)`.  (The original claim's stronger bound,
"at most the perimeter", fails for NaN-substituted units, see the
counterexample.) -/
theorem correctChannelLength_spec (ewres : ℚ) (perims : List ℚ) (chl : List (Option ℚ)) :
    (∀ p, correctOne (ewres * 1e-3) (p, (none : Option ℚ)) = ewres * 1e-3) ∧
    (∀ p l, p < l → correctOne (ewres * 1e-3) (p, some l) = p) ∧
    (∀ p l, l ≤ p → correctOne (ewres * 1e-3) (p, some l) = l) ∧
    (∀ y ∈ correctChannelLength ewres perims chl,
      ∃ pc ∈ perims.zip chl, y = correctOne (ewres * 1e-3) pc ∧ y ≤ max pc.1 (ewres * 1e-3)) := by
  refine ⟨fun p => rfl, fun p l h => by simp [correctOne, h],
    fun p l h => by simp [correctOne, not_lt.mpr h], ?_⟩
  intro y hy
  rw [correctChannelLength] at hy
  rcases List.mem_map.mp hy with ⟨pc, hpc, rfl⟩
  exact ⟨pc, hpc, rfl, correctOne_le _ _⟩

/-- Witness for C2: a 2 km length against a 0.5 km perimeter is clamped to
the perimeter. -/
theorem correctChannelLength_spec_witness :
    correctOne ((1000 : ℚ) * 1e-3) (1/2, some 2) = 1/2 :=
  (correctChannelLength_spec 1000 [] []).2.1 (1/2) 2 (by norm_num)

/-- C2 counterexample: with a 1000 m (1 km) cell resolution and a single
subbasin of perimeter 0.5 km whose raw channel length is NaN, the corrected
length is the substituted 1 km, which exceeds the perimeter — refuting the
claim's "every returned length is less than or equal to the unit's
perimeter". -/
theorem correctChannelLength_cex :
    correctChannelLength 1000 [1/2] [none] = [1] ∧ ¬ ((1 : ℚ) ≤ 1/2) := by
  norm_num [correctChannelLength, correctOne]

/-- Invariant of the resolution loop: if every stored parameter array has
length `N` and the loop succeeds, every array of the result has length `N`
(new arrays are only stored after passing the length check). -/
lemma resolveParams_lengths (cfg : Config) (N : ℕ) :
    ∀ (queue : List (String × String)) (params ps : List (String × List (Option ℚ))),
      (∀ pl ∈ params, pl.2.length = N) →
      resolveParams cfg N queue params = Except.ok ps →
      ∀ pl ∈ ps, pl.2.length = N := by
  intro queue
  induction queue with
  | nil =>
    intro params ps hinv h
    simp only [resolveParams, Except.ok.injEq] at h
    exact h ▸ hinv
  | cons gp rest ih =>
    intro params ps hinv h
    simp only [resolveParams] at h
    by_cases hl : (params.lookup gp.2).isSome
    · rw [if_pos hl] at h
      exact ih params ps hinv h
    · rw [if_neg hl] at h
      split at h
      · simp at h
      · rename_i par heq
        split at h
        · rename_i hlen
          refine ih _ ps ?_ h
          intro pl hpl
          rcases List.mem_append.mp hpl with h1 | h2
          · exact hinv pl h1
          · simp [List.mem_singleton.mp h2, hlen]
        · simp at h

/-- C1: when `subbasinStats` succeeds, every resolved parameter array in the
result has length exactly `N` (the number of subbasins, discovered as the
length of the area-fraction array); and whenever a freshly resolved
parameter's length differs from `N`, the loop aborts fatally with the
message naming the actual count, the parameter and the expected subbasin
count. -/
theorem subbasinStats_param_lengths (cfg : Config) (o : Orders) (N : ℕ)
    (ps : List (String × List (Option ℚ)))
    (h : subbasinStats cfg o = Except.ok (N, ps)) :
    (∀ pl ∈ ps, pl.2.length = N) ∧
    (∀ (g p : String) (queue : List (String × String))
        (params : List (String × List (Option ℚ))) (par : List (Option ℚ)),
      (params.lookup p).isSome = false →
      getParam cfg N p = Except.ok par → par.length ≠ N →
      resolveParams cfg N ((g, p) :: queue) params =
        Except.error (lengthErrMsg par.length p N)) := by
  constructor
  · unfold subbasinStats at h
    split at h
    · simp at h
    · rename_i qs hres
      simp only [Except.ok.injEq, Prod.mk.injEq] at h
      obtain ⟨hN, rfl⟩ := h
      rw [hN] at hres
      refine resolveParams_lengths cfg N (allOrderParams o) _ qs ?_ hres
      intro pl hpl
      rw [List.mem_singleton.mp hpl]
      simp [hN]
  · intro g p queue params par hl hg hlen
    simp [resolveParams, hl, hg, hlen]

/-- Environment for the C1 witness: one subbasin, one explicit parameter. -/
def wcfg1 : Config where
  options := fun s => if s = "x" then some (OptValue.num 1) else none
  layerExists := fun _ => false
  zonalMean := fun _ => []
  computed := fun _ => []
  ewres := 1
  perims := []
  subbcells := [1]

/-- Order lists for the C1 witness. -/
def worders1 : Orders where
  suborder := ["x"]
  gworder := []
  rteorder := []

/-- Witness for C1: a successful run with one subbasin stores the resolved
array of `x` with length 1. -/
theorem subbasinStats_param_lengths_witness :
    ([some (1 : ℚ)] : List (Option ℚ)).length = 1 :=
  (subbasinStats_param_lengths wcfg1 worders1 1 [("flu", [some 1]), ("x", [some 1])]
      (by
        norm_num [subbasinStats, areaFractions, resolveParams, allOrderParams,
          getParam, wcfg1, worders1, List.lookup, List.replicate]
        rfl)).1
    ("x", [some 1]) (by simp)

/-- If some member of an order list fails its parameter check, the list's
validation loop aborts fatally (with the first failing member's message). -/
lemma checkList_error_of_mem (opts : String → Bool) (g p : String) (ps : List String)
    (hp : p ∈ ps) (e : String) (he : checkParam opts g p = Except.error e) :
    ∃ e', checkList opts g ps = Except.error e' := by
  induction ps with
  | nil => cases hp
  | cons q qs ih =>
    rcases List.mem_cons.mp hp with rfl | hq
    · exact ⟨e, by simp [checkList, he]⟩
    · cases hcq : checkParam opts g q with
      | error e'' => exact ⟨e'', by simp [checkList, hcq]⟩
      | ok u =>
        rcases ih hq with ⟨e', h'⟩
        exact ⟨e', by simp [checkList, hcq, h']⟩

/-- If a parameter of any of the three order lists fails its check under
every group name, the whole validation aborts fatally. -/
lemma checkOrders_error (opts : String → Bool) (o : Orders) (p : String)
    (hmem : p ∈ o.suborder ∨ p ∈ o.gworder ∨ p ∈ o.rteorder)
    (hfail : ∀ g, ∃ e, checkParam opts g p = Except.error e) :
    ∃ e, checkOrders opts o = Except.error e := by
  rcases hmem with h1 | h2 | h3
  · rcases hfail "subbasin" with ⟨e, he⟩
    rcases checkList_error_of_mem opts "subbasin" p o.suborder h1 e he with ⟨e', h'⟩
    exact ⟨e', by simp [checkOrders, h']⟩
  · cases hs : checkList opts "subbasin" o.suborder with
    | error e => exact ⟨e, by simp [checkOrders, hs]⟩
    | ok u =>
      rcases hfail "groundwater" with ⟨e, he⟩
      rcases checkList_error_of_mem opts "groundwater" p o.gworder h2 e he with ⟨e', h'⟩
      exact ⟨e', by simp [checkOrders, hs, h']⟩
  · cases hs : checkList opts "subbasin" o.suborder with
    | error e => exact ⟨e, by simp [checkOrders, hs]⟩
    | ok u =>
      cases hg : checkList opts "groundwater" o.gworder with
      | error e => exact ⟨e, by simp [checkOrders, hs, hg]⟩
      | ok u' =>
        rcases hfail "routing" with ⟨e, he⟩
        rcases checkList_error_of_mem opts "routing" p o.rteorder h3 e he with ⟨e', h'⟩
        exact ⟨e', by simp [checkOrders, hs, hg, h']⟩

/-- A fatal validation error makes the whole initialisation abort before
any raster action. -/
lemma isFatal_initial (opts : String → Bool) (o : Orders)
    (h : ∃ e, checkOrders opts o = Except.error e) : isFatal (initial opts o) = true := by
  rcases h with ⟨e, he⟩
  simp [initial, he, isFatal]

/-- C6: a parameter of one of the order lists with no explicit value, no
registered computation function, and different from the reserved `flu`
pseudo-parameter makes its check fail with the message naming the parameter
and its group, and the initialisation aborts fatally before any raster work
is performed. -/
theorem unresolvable_param_aborts (opts : String → Bool) (o : Orders) (p : String)
    (hmem : p ∈ o.suborder ∨ p ∈ o.gworder ∨ p ∈ o.rteorder)
    (hflu : p ≠ "flu") (hopt : opts p = false) (hfun : p ∉ functionNames) :
    (∀ g, checkParam opts g p = Except.error (configErrMsg p g)) ∧
    isFatal (initial opts o) = true := by
  have hcp : ∀ g, checkParam opts g p = Except.error (configErrMsg p g) := by
    intro g
    simp [checkParam, hflu, hopt, hfun]
  exact ⟨hcp, isFatal_initial opts o (checkOrders_error opts o p hmem (fun g => ⟨_, hcp g⟩))⟩

/-- Witness for C6: an order list containing `zzz` with no options set at
all yields the configuration error naming `zzz` and its group. -/
theorem unresolvable_param_aborts_witness :
    checkParam (fun _ => false) "subbasin" "zzz" =
      Except.error (configErrMsg "zzz" "subbasin") :=
  (unresolvable_param_aborts (fun _ => false) ⟨["zzz"], [], []⟩ "zzz"
    (Or.inl (by simp)) (by decide) rfl (by decide)).1 "subbasin"

/-- C9: a function-computed parameter (`chl`, `chs`, `chw`, `chd` or `lat`)
without an explicit value makes the validation abort fatally as soon as any
one of the four options elevation, drainage, accumulation, mainstreams is
missing — the check demands all four indiscriminately, even though e.g.
`centroid_latitude` reads none of them (its embedding takes only the
subbasin centroid coordinates). -/
theorem function_param_needs_all_rasts (opts : String → Bool) (o : Orders) (p r : String)
    (hmem : p ∈ o.suborder ∨ p ∈ o.gworder ∨ p ∈ o.rteorder)
    (hopt : opts p = false) (hfun : p ∈ functionNames)
    (hr : r ∈ functionsrasts) (hro : opts r = false) :
    (∀ g, checkParam opts g p = Except.error (calcErrMsg p)) ∧
    isFatal (initial opts o) = true := by
  have hflu : p ≠ "flu" := by
    intro hq
    subst hq
    revert hfun
    decide
  have hall : functionsrasts.all opts = false := by
    by_cases hb : functionsrasts.all opts
    · have h2 := List.all_eq_true.mp hb r hr
      rw [hro] at h2
      simp at h2
    · simpa using hb
  have hcp : ∀ g, checkParam opts g p = Except.error (calcErrMsg p) := by
    intro g
    simp [checkParam, hflu, hopt, hfun, hall]
  exact ⟨hcp, isFatal_initial opts o (checkOrders_error opts o p hmem (fun g => ⟨_, hcp g⟩))⟩

/-- Options for the C9 witness: drainage, accumulation and mainstreams are
given but elevation is not, and `lat` has no explicit value. -/
def wopts9 : String → Bool := fun s =>
  ["drainage", "accumulation", "mainstreams"].contains s

/-- Witness for C9: `lat` in the subbasin order list with elevation missing
fails validation although `centroid_latitude` needs no raster. -/
theorem function_param_needs_all_rasts_witness :
    checkParam wopts9 "subbasin" "lat" = Except.error (calcErrMsg "lat") :=
  (function_param_needs_all_rasts wopts9 ⟨["lat"], [], []⟩ "lat" "elevation"
    (Or.inl (by simp)) (by decide) (by decide) (by decide) (by decide)).1 "subbasin"

/-- `sorted(self.orders)[::-1]` on the three group names: descending
alphabetical order, i.e. subbasin, routing, groundwater. -/
lemma sortedGroups_eq :
    (pySorted groupKeys).reverse = ["subbasin", "routing", "groundwater"] := by decide

/-- C5 (amended): the stacked output table has exactly `N` rows, their
leading entries are the contiguous unit ids 1..N, and the parameter columns
are those of the three groups ordered by group name descending (subbasin,
then routing, then groundwater), each group's internal order exactly as in
its order list — but a parameter name listed by more than one group appears
once per listing; it is not collapsed to a single column (see the
counterexample). -/
theorem write_csv_output_spec (N : ℕ) (o : Orders) (data : String → List ℚ) :
    (csvRows N o data).length = N ∧
    (csvRows N o data).map List.head? =
      (List.range N).map (fun i : ℕ => some (((i + 1 : ℕ) : ℚ))) ∧
    outputCols o = o.suborder ++ o.rteorder ++ o.gworder ∧
    csvHeader o = "subbasin_id" :: (o.suborder ++ o.rteorder ++ o.gworder) := by
  have hcols : outputCols o = o.suborder ++ o.rteorder ++ o.gworder := by
    rw [outputCols, sortedGroups_eq]
    simp [ordersGet, List.flatMap]
  refine ⟨by simp [csvRows], ?_, hcols, by simp [csvHeader, hcols]⟩
  simp [csvRows, List.map_map, Function.comp]

/-- C5 counterexample: a parameter named `a` listed in both the subbasin and
the groundwater order lists produces two identical columns `a`, not one —
the output column list is not duplicate-free. -/
theorem outputCols_duplicate_cex :
    outputCols { suborder := ["a"], gworder := ["a"], rteorder := [] } = ["a", "a"] ∧
    ¬ (outputCols { suborder := ["a"], gworder := ["a"], rteorder := [] }).Nodup := by
  decide

/-- C3: channel width and depth follow the empirical regressions
`min(1.29 * (max_accum * res^2/1e6)^0.6, 3000)` and
`min(0.13 * (max_accum * res^2/1e6)^0.4, 50)`; both are monotonically
non-decreasing in the subbasin's maximum flow accumulation for fixed
resolution, and never exceed 3000 m and 50 m respectively. -/
theorem channel_width_depth_monotone_capped (res a₁ a₂ : ℝ)
    (h0 : 0 ≤ a₁) (h12 : a₁ ≤ a₂) :
    channelWidth a₁ res ≤ channelWidth a₂ res ∧ channelWidth a₂ res ≤ 3000 ∧
    channelDepth a₁ res ≤ channelDepth a₂ res ∧ channelDepth a₂ res ≤ 50 := by
  have hx : (0 : ℝ) ≤ a₁ * res ^ (2 : ℕ) / 1000000 :=
    div_nonneg (mul_nonneg h0 (sq_nonneg res)) (by norm_num)
  have hxy : a₁ * res ^ (2 : ℕ) / 1000000 ≤ a₂ * res ^ (2 : ℕ) / 1000000 :=
    (div_le_div_iff_of_pos_right (by norm_num : (0 : ℝ) < 1000000)).mpr
      (mul_le_mul_of_nonneg_right h12 (sq_nonneg res))
  have hr6 := Real.rpow_le_rpow hx hxy (by norm_num : (0 : ℝ) ≤ 0.6)
  have hr4 := Real.rpow_le_rpow hx hxy (by norm_num : (0 : ℝ) ≤ 0.4)
  simp only [channelWidth, channelDepth]
  refine ⟨min_le_min ?_ le_rfl, min_le_right _ _, min_le_min ?_ le_rfl, min_le_right _ _⟩
  · exact mul_le_mul_of_nonneg_left hr6 (by norm_num)
  · exact mul_le_mul_of_nonneg_left hr4 (by norm_num)

/-- Witness for C3 at accumulations 0 and 1000000 with 30 m resolution. -/
theorem channel_width_depth_monotone_capped_witness :
    channelWidth 0 30 ≤ channelWidth 1000000 30 ∧ channelWidth 1000000 30 ≤ 3000 ∧
    channelDepth 0 30 ≤ channelDepth 1000000 30 ∧ channelDepth 1000000 30 ≤ 50 :=
  channel_width_depth_monotone_capped 30 0 1000000 le_rfl (by norm_num)

/-- C4: the 0.01-degree minimum-slope clamp is applied before the tangent
transform — a subbasin with zonal mean stream slope `s` degrees gets
`tan(max(s, 0.01)·π/180)` — and a valid subbasin with no stream-slope value
gets exactly `tan(0.01·π/180)` instead of an undefined value. -/
theorem mainChannelSlope_clamp_before_tan (s : ℝ) (valid : Bool) :
    mainChannelSlope 0.01 (some s) valid = some (Real.tan (max s 0.01 * Real.pi / 180)) ∧
    mainChannelSlope 0.01 none true = some (Real.tan (0.01 * Real.pi / 180)) :=
  ⟨rfl, rfl⟩

end Theorems

end MSwimSubstats
